import Mathlib

/-!
Shallow embedding of the GST analysis engine
(`gstnxt_backend/app/services/gst_analysis_service.py`) and proofs of the
specification claims about it.  Python dataframes are modelled as lists of
association-list rows with `Option String` cells (`none` = NaN); fallible
I/O is modelled with `Except`.
-/

namespace GSTNxt

/-! ## Filing-period calendar (`_get_month_name`, `get_fy_month_order`) -/

/-- The `month_names` list from `_get_month_name`. -/
def monthNames : List String :=
  ["Jan", "Feb", "Mar", "Apr", "May", "Jun",
   "Jul", "Aug", "Sep", "Oct", "Nov", "Dec"]

/-- Embeds `_get_month_name`: MMM-YY label for a valid month, and the
explicit invalid marker otherwise.  Python `str(year)[-2:]` is
`(toString year).takeRight 2`. -/
def getMonthName (month year : Nat) : String :=
  if 1 ≤ month ∧ month ≤ 12 then
    monthNames.getD (month - 1) "" ++ "-" ++ (toString year).takeRight 2
  else
    "Invalid-" ++ toString year

/-- Embeds `get_fy_month_order` (defined identically inside
`_process_gstr1_data` and `_process_gstr2a_data`): Apr..Dec map to 1..9,
Jan..Mar map to 10..12. -/
def getFyMonthOrder (month : Nat) : Nat :=
  if month ≥ 4 then month - 3 else month + 9

/-- The sort key used by `sorted(..., key=lambda x: (x.year if x.month >= 4
else x.year + 1, get_fy_month_order(x)))`. -/
def fySortKey (month year : Nat) : Nat × Nat :=
  (if month ≥ 4 then year else year + 1, getFyMonthOrder month)

/-- Strict lexicographic order on the sort keys (Python tuple `<`). -/
def keyLT (a b : Nat × Nat) : Prop :=
  a.1 < b.1 ∨ (a.1 = b.1 ∧ a.2 < b.2)

/-- The twelve months of the fiscal year starting in April of year `y`,
in chronological order, as (month, year) pairs. -/
def fiscalSequence (y : Nat) : List (Nat × Nat) :=
  [(4, y), (5, y), (6, y), (7, y), (8, y), (9, y), (10, y), (11, y), (12, y),
   (1, y + 1), (2, y + 1), (3, y + 1)]

/-! ## Sheet-name matching (`_read_excel_worksheet`, lines 791-800) -/

/-- Python `str.upper` on the ASCII sheet names used here. -/
def pyUpper (s : String) : String := String.mk (s.data.map Char.toUpper)

/-- Python substring containment `needle in hay` on strings. -/
def hasSubstring (hay needle : String) : Bool :=
  go hay.data
where
  go : List Char → Bool
    | [] => needle.data.isPrefixOf []
    | c :: rest => needle.data.isPrefixOf (c :: rest) || go rest

/-- The per-sheet test from the resolution loop: exact case-insensitive
match, or containment in either direction. -/
def sheetMatches (worksheetName sheet : String) : Bool :=
  pyUpper sheet == pyUpper worksheetName ||
    hasSubstring (pyUpper sheet) (pyUpper worksheetName) ||
    hasSubstring (pyUpper worksheetName) (pyUpper sheet)

/-- Embeds the sheet-resolution loop of `_read_excel_worksheet`: the first
sheet whose name matches exactly (case-insensitively) or by containment in
either direction; `none` when no sheet matches. -/
def findSheet (worksheetName : String) : List String → Option String
  | [] => none
  | sheet :: rest =>
    if pyUpper sheet == pyUpper worksheetName then some sheet
    else if hasSubstring (pyUpper sheet) (pyUpper worksheetName) ||
        hasSubstring (pyUpper worksheetName) (pyUpper sheet) then some sheet
    else findSheet worksheetName rest

/-! ## Dataframe model

A pandas `DataFrame` is modelled as a column-name list plus rows; a row is
an association list from column name to cell, a cell being `Option String`
with `none` standing for NaN. -/

/-- One dataframe row: column name to cell; `none` is NaN. -/
abbrev Row := List (String × Option String)

/-- A dataframe: column names and rows. -/
structure Frame where
  cols : List String
  rows : List Row
deriving DecidableEq

/-- Python `row.get(col, "")`: the default "" when the column is missing
from the row, otherwise the stored cell (possibly NaN). -/
def rowGetD (r : Row) (c : String) : Option String :=
  match List.lookup c r with
  | none => some ""
  | some v => v

/-- Cell access for `data[col].iloc[i]`-style reads: a missing entry is
NaN. -/
def rowCell (r : Row) (c : String) : Option String :=
  (List.lookup c r).getD none

/-- Python `str.strip`, over the character list (kernel-reducible). -/
def pyStrip (s : String) : String :=
  String.mk
    ((s.data.dropWhile Char.isWhitespace).reverse.dropWhile
      Char.isWhitespace).reverse

/-- The test `pd.isna(v) or str(v).strip() == ""` from the validator. -/
def isNaBlank (v : Option String) : Bool :=
  match v with
  | none => true
  | some s => pyStrip s == ""

/-- Python `str(v)` on a cell (`str(nan)` is "nan"). -/
def cellStr (v : Option String) : String :=
  match v with
  | none => "nan"
  | some s => s

/-- A row all of whose cells are NaN, as dropped by
`dropna` with how set to all. -/
def rowAllNa (r : Row) : Bool :=
  r.all (fun p => p.2.isNone)

/-- Embeds `df.dropna` (how set to all) on the rows of a frame. -/
def dropnaAllRows (f : Frame) : List Row :=
  f.rows.filter (fun r => !rowAllNa r)

/-! ## Date parsing (`_add_month_validation`, lines 1003-1026)

The three regex patterns are matched with `re.search` semantics: leftmost
starting position, greedy within a position.  `\x5cd{n}` consumes exactly
`n` digit characters with no boundary requirement on either side. -/

/-- A slash-or-dash separator character. -/
def isSep (c : Char) : Bool := c == '/' || c == '-'

/-- Numeric value of a digit-character group, as Python `int`. -/
def digitsToNat (cs : List Char) : Nat :=
  cs.foldl (fun n c => n * 10 + (c.toNat - 48)) 0

/-- Consume exactly `n` digit characters. -/
def takeDigits : Nat → List Char → Option (List Char × List Char)
  | 0, cs => some ([], cs)
  | _ + 1, [] => none
  | n + 1, c :: cs =>
    if c.isDigit then
      match takeDigits n cs with
      | some (ds, rest) => some (c :: ds, rest)
      | none => none
    else none

/-- Consume one slash-or-dash separator. -/
def takeSep : List Char → Option (List Char)
  | [] => none
  | c :: cs => if isSep c then some cs else none

/-- Match `a` digits, separator, `b` digits, separator, `c` digits at the
head of the character list; returns the three numeric groups. -/
def matchGroupsAt (a b c : Nat) (cs : List Char) : Option (Nat × Nat × Nat) :=
  match takeDigits a cs with
  | none => none
  | some (g1, cs1) =>
    match takeSep cs1 with
    | none => none
    | some cs2 =>
      match takeDigits b cs2 with
      | none => none
      | some (g2, cs3) =>
        match takeSep cs3 with
        | none => none
        | some cs4 =>
          match takeDigits c cs4 with
          | none => none
          | some (g3, _) =>
            some (digitsToNat g1, digitsToNat g2, digitsToNat g3)

/-- Pattern dd sep dd sep dddd at one position. -/
def matchP1At (cs : List Char) : Option (Nat × Nat × Nat) := matchGroupsAt 2 2 4 cs

/-- Pattern dddd sep dd sep dd at one position. -/
def matchP2At (cs : List Char) : Option (Nat × Nat × Nat) := matchGroupsAt 4 2 2 cs

/-- Pattern d or dd, sep, d or dd, sep, dddd at one position,
with the greedy backtracking order (2,2), (2,1), (1,2), (1,1). -/
def matchP3At (cs : List Char) : Option (Nat × Nat × Nat) :=
  match matchGroupsAt 2 2 4 cs with
  | some r => some r
  | none =>
    match matchGroupsAt 2 1 4 cs with
    | some r => some r
    | none =>
      match matchGroupsAt 1 2 4 cs with
      | some r => some r
      | none => matchGroupsAt 1 1 4 cs

/-- Embeds `re.search`: try the pattern at each starting position, leftmost
first. -/
def searchFirst (f : List Char → Option (Nat × Nat × Nat)) :
    List Char → Option (Nat × Nat × Nat)
  | [] => none
  | c :: rest =>
    match f (c :: rest) with
    | some r => some r
    | none => searchFirst f rest

/-- Whether a Gregorian year is a leap year, as `datetime` uses. -/
def isLeap (y : Nat) : Bool :=
  y % 4 == 0 && (y % 100 != 0 || y % 400 == 0)

/-- Days in a month, as `datetime` validates. -/
def daysInMonth (y m : Nat) : Nat :=
  if m == 2 then (if isLeap y then 29 else 28)
  else if m == 4 || m == 6 || m == 9 || m == 11 then 30
  else 31

/-- Whether `datetime(year, month, day)` succeeds (no `ValueError`). -/
def pyDatetimeValid (y m d : Nat) : Bool :=
  1 ≤ y && y ≤ 9999 && 1 ≤ m && m ≤ 12 && 1 ≤ d && d ≤ daysInMonth y m

/-- Interpret the groups of one pattern: group order is day/month/year unless
the first group has four digits (the `len(groups[0]) == 4` dispatch, which
holds exactly for the second pattern); then build the date, discarding it
when `datetime` would raise. -/
def acceptGroups (yearFirst : Bool) (g : Option (Nat × Nat × Nat)) :
    Option (Nat × Nat × Nat) :=
  match g with
  | none => none
  | some (a, b, c) =>
    let y := if yearFirst then a else c
    let m := b
    let d := if yearFirst then c else a
    if pyDatetimeValid y m d then some (y, m, d) else none

/-- The full parsing chain of `_add_month_validation`: patterns tried in
order, moving to the next pattern when a pattern does not match or its
match is not a calendar-valid date.  Returns (year, month, day). -/
def parseDateYMD (s : String) : Option (Nat × Nat × Nat) :=
  let cs := s.data
  match acceptGroups false (searchFirst matchP1At cs) with
  | some r => some r
  | none =>
    match acceptGroups true (searchFirst matchP2At cs) with
    | some r => some r
    | none => acceptGroups false (searchFirst matchP3At cs)

/-! ## Date-vs-period validator (`_add_month_validation`) -/

/-- Python `data_month == file_month` where the declared month may be
NaN. -/
def cellEqStr (s : String) (v : Option String) : Bool :=
  match v with
  | some t => s == t
  | none => false

/-- The declared period of the fragment:
the Month cell of the first row when the frame has rows, else the empty string. -/
def fileMonthOf (f : Frame) : Option String :=
  match f.rows with
  | [] => some ""
  | r :: _ => rowCell r "Month"

/-- The per-row body of the validation loop: NO DATE for an absent or
blank cell, INVALID DATE when no pattern yields a calendar-valid date,
otherwise CORRECT/WRONG MONTH by comparing the period label of the parsed date
with the declared one. -/
def rowLabel (fileMonth : Option String) (cell : Option String) : String :=
  if isNaBlank cell then "NO DATE"
  else
    match parseDateYMD (cellStr cell) with
    | some (y, m, _) =>
      if cellEqStr (getMonthName m y) fileMonth then "CORRECT MONTH"
      else "WRONG MONTH"
    | none => "INVALID DATE"

/-- The validation loop: one label per row, with the running
`wrong_month_count` incremented on each WRONG MONTH label. -/
def validateRows (fileMonth : Option String) (dateColumn : String) :
    List Row → List String × Nat
  | [] => ([], 0)
  | r :: rest =>
    let lbl := rowLabel fileMonth (rowGetD r dateColumn)
    let (ls, n) := validateRows fileMonth dateColumn rest
    (lbl :: ls, (if lbl == "WRONG MONTH" then 1 else 0) + n)

/-- Embeds `_add_month_validation`: a frame without a literal Month
column is returned unchanged with count 0; otherwise the label column
Month Validation is appended and the wrong-month count returned.  The
`month_column` parameter is accepted but, as in the source, never used. -/
def addMonthValidation (data : Frame) (monthColumn dateColumn : String) :
    Frame × Nat :=
  if data.cols.contains "Month" then
    let fm := fileMonthOf data
    let (results, wrongCount) := validateRows fm dateColumn data.rows
    (⟨data.cols ++ ["Month Validation"],
      (data.rows.zip results).map
        (fun p => p.1 ++ [("Month Validation", some p.2)])⟩,
     wrongCount)
  else (data, 0)

/-! ## Claims C3, C4, C5 -/

/-- C3: the fiscal-year sort key maps April..December to ranks 1..9 and
January..March to ranks 10..12 (keyed to the following year), and along the
fiscal-year chronological sequence April y, May y, ..., March y+1 the
(fiscal year, month-rank) keys are strictly increasing in lexicographic
order, for every year. -/
theorem c3_fy_sort_key_monotone :
    ((List.range 12).map (fun i => getFyMonthOrder (i + 1)) =
      [10, 11, 12, 1, 2, 3, 4, 5, 6, 7, 8, 9]) ∧
    (∀ y : Nat, ((fiscalSequence y).map (fun p => fySortKey p.1 p.2)).Pairwise keyLT) := by
  constructor
  · decide
  · intro y
    simp [fiscalSequence, fySortKey, getFyMonthOrder, keyLT, List.pairwise_cons]
    omega

/-- C4: the canonical period label of (month 4, year 2021) is "Apr-21", and
every month outside 1..12 yields the explicit invalid-period marker
"Invalid-{year}" (the function is total: it neither throws nor wraps the
month into range). -/
theorem c4_month_label (m y : Nat) (h : m < 1 ∨ 12 < m) :
    getMonthName 4 2021 = "Apr-21" ∧
    getMonthName m y = "Invalid-" ++ toString y := by
  refine ⟨by decide, ?_⟩
  unfold getMonthName
  rw [if_neg]
  omega

/-- Witness for C4 at month 13. -/
theorem c4_month_label_witness :
    getMonthName 4 2021 = "Apr-21" ∧
    getMonthName 13 2021 = "Invalid-" ++ toString 2021 :=
  c4_month_label 13 2021 (by decide)

/-- C5: sheet-name resolution is case-insensitive and accepts substring
containment in either direction: the section key "B2B" resolves against
"b2b", "B2B (4A)" and "Table B2B", resolves to nothing against "B2C", and
whenever no sheet name matches, resolution returns `none` rather than an
error. -/
theorem c5_sheet_matching (name : String) (sheets : List String)
    (h : ∀ s ∈ sheets, sheetMatches name s = false) :
    findSheet "B2B" ["b2b"] = some "b2b" ∧
    findSheet "B2B" ["B2B (4A)"] = some "B2B (4A)" ∧
    findSheet "B2B" ["Table B2B"] = some "Table B2B" ∧
    findSheet "B2B" ["B2C"] = none ∧
    findSheet name sheets = none := by
  refine ⟨by decide, by decide, by decide, by decide, ?_⟩
  induction sheets with
  | nil => rfl
  | cons s rest ih =>
    have hs := h s (by simp)
    simp only [sheetMatches, Bool.or_eq_false_iff] at hs
    simp [findSheet, hs.1.1, hs.1.2, hs.2, ih fun t ht => h t (by simp [ht])]

/-- Witness for C5: no sheet in ["Summary", "Totals"] matches "B2B". -/
theorem c5_sheet_matching_witness :
    findSheet "B2B" ["Summary", "Totals"] = none :=
  (c5_sheet_matching "B2B" ["Summary", "Totals"] (by decide)).2.2.2.2

/-! ## Claims C2, C10 -/

/-- The validation loop produces exactly the per-row labels, and its
running counter counts the WRONG MONTH labels. -/
theorem validateRows_eq (fm : Option String) (dc : String) (rows : List Row) :
    validateRows fm dc rows =
      (rows.map (fun r => rowLabel fm (rowGetD r dc)),
       (rows.map (fun r => rowLabel fm (rowGetD r dc))).countP
         (fun l => l == "WRONG MONTH")) := by
  induction rows with
  | nil => rfl
  | cons r rest ih =>
    simp only [validateRows, ih, List.map_cons, List.countP_cons]
    rw [Nat.add_comm]

/-- C2: for every fragment processed by the date-vs-period validator, each
row is labeled NO DATE when its date cell is absent or blank, INVALID DATE
when no accepted date pattern yields a calendar-valid date, and CORRECT
MONTH or WRONG MONTH by comparing the parsed period label with the
fragment's declared one; the returned mismatch count is exactly the number
of rows labeled WRONG MONTH. -/
theorem c2_month_validator (data : Frame) (mc dc : String)
    (h : data.cols.contains "Month" = true) :
    ∃ labels : List String,
      (addMonthValidation data mc dc).1.rows =
        (data.rows.zip labels).map
          (fun p => p.1 ++ [("Month Validation", some p.2)]) ∧
      labels.length = data.rows.length ∧
      (∀ (i : Nat) (r : Row), data.rows[i]? = some r →
        ((isNaBlank (rowGetD r dc) = true → labels[i]? = some "NO DATE") ∧
         (isNaBlank (rowGetD r dc) = false →
            parseDateYMD (cellStr (rowGetD r dc)) = none →
            labels[i]? = some "INVALID DATE") ∧
         (∀ y m d, isNaBlank (rowGetD r dc) = false →
            parseDateYMD (cellStr (rowGetD r dc)) = some (y, m, d) →
            (cellEqStr (getMonthName m y) (fileMonthOf data) = true →
              labels[i]? = some "CORRECT MONTH") ∧
            (cellEqStr (getMonthName m y) (fileMonthOf data) = false →
              labels[i]? = some "WRONG MONTH")))) ∧
      (addMonthValidation data mc dc).2 =
        labels.countP (fun l => l == "WRONG MONTH") := by
  have hmem : "Month" ∈ data.cols := by simpa using h
  refine ⟨data.rows.map (fun r => rowLabel (fileMonthOf data) (rowGetD r dc)),
    ?_, by simp, ?_, ?_⟩
  · simp [addMonthValidation, validateRows_eq, hmem]
  · intro i r hr
    have hl : (data.rows.map
        (fun r => rowLabel (fileMonthOf data) (rowGetD r dc)))[i]? =
        some (rowLabel (fileMonthOf data) (rowGetD r dc)) := by
      simp [List.getElem?_map, hr]
    refine ⟨fun hna => ?_, fun hna hp => ?_, fun y m d hna hp => ⟨fun he => ?_, fun he => ?_⟩⟩
    · rw [hl]; simp [rowLabel, hna]
    · rw [hl]; simp [rowLabel, hna, hp]
    · rw [hl]; simp [rowLabel, hna, hp, he]
    · rw [hl]; simp [rowLabel, hna, hp, he]
  · simp [addMonthValidation, validateRows_eq, hmem, List.countP_map]

/-- Witness for C2 on a three-row fragment (correct month, wrong month,
missing date). -/
theorem c2_month_validator_witness :
    ∃ labels : List String,
      (addMonthValidation
        ⟨["D", "Month"],
         [[("D", some "15/04/2021"), ("Month", some "Apr-21")],
          [("D", some "15/05/2021"), ("Month", some "Apr-21")],
          [("D", none), ("Month", some "Apr-21")]]⟩ "R" "D").1.rows =
        (([[("D", some "15/04/2021"), ("Month", some "Apr-21")],
           [("D", some "15/05/2021"), ("Month", some "Apr-21")],
           [("D", none), ("Month", some "Apr-21")]] : List Row).zip labels).map
          (fun p => p.1 ++ [("Month Validation", some p.2)]) ∧
      labels.length =
        ([[("D", some "15/04/2021"), ("Month", some "Apr-21")],
          [("D", some "15/05/2021"), ("Month", some "Apr-21")],
          [("D", none), ("Month", some "Apr-21")]] : List Row).length ∧
      (∀ (i : Nat) (r : Row),
        ([[("D", some "15/04/2021"), ("Month", some "Apr-21")],
          [("D", some "15/05/2021"), ("Month", some "Apr-21")],
          [("D", none), ("Month", some "Apr-21")]] : List Row)[i]? = some r →
        ((isNaBlank (rowGetD r "D") = true → labels[i]? = some "NO DATE") ∧
         (isNaBlank (rowGetD r "D") = false →
            parseDateYMD (cellStr (rowGetD r "D")) = none →
            labels[i]? = some "INVALID DATE") ∧
         (∀ y m d, isNaBlank (rowGetD r "D") = false →
            parseDateYMD (cellStr (rowGetD r "D")) = some (y, m, d) →
            (cellEqStr (getMonthName m y)
                (fileMonthOf ⟨["D", "Month"],
                  [[("D", some "15/04/2021"), ("Month", some "Apr-21")],
                   [("D", some "15/05/2021"), ("Month", some "Apr-21")],
                   [("D", none), ("Month", some "Apr-21")]]⟩) = true →
              labels[i]? = some "CORRECT MONTH") ∧
            (cellEqStr (getMonthName m y)
                (fileMonthOf ⟨["D", "Month"],
                  [[("D", some "15/04/2021"), ("Month", some "Apr-21")],
                   [("D", some "15/05/2021"), ("Month", some "Apr-21")],
                   [("D", none), ("Month", some "Apr-21")]]⟩) = false →
              labels[i]? = some "WRONG MONTH")))) ∧
      (addMonthValidation
        ⟨["D", "Month"],
         [[("D", some "15/04/2021"), ("Month", some "Apr-21")],
          [("D", some "15/05/2021"), ("Month", some "Apr-21")],
          [("D", none), ("Month", some "Apr-21")]]⟩ "R" "D").2 =
        labels.countP (fun l => l == "WRONG MONTH") :=
  c2_month_validator _ "R" "D" (by decide)

/-- C10: the validator takes the fragment's declared period solely from
the Month value of the first row — the labels and the mismatch count
depend only on the first row's Month and the per-row date cells, so a row
carrying a different Month of its own is still judged against the first
row's period — and a fragment without a Month column is returned
unchanged, with count 0 and no validation column appended. -/
theorem c10_first_row_declared_period :
    (∀ (data : Frame) (mc dc : String), data.cols.contains "Month" = false →
      addMonthValidation data mc dc = (data, 0)) ∧
    (∀ (d1 d2 : Frame) (dc : String),
      fileMonthOf d1 = fileMonthOf d2 →
      d1.rows.map (fun r => rowGetD r dc) = d2.rows.map (fun r => rowGetD r dc) →
      validateRows (fileMonthOf d1) dc d1.rows =
        validateRows (fileMonthOf d2) dc d2.rows) ∧
    ((addMonthValidation
        ⟨["D", "Month"],
         [[("D", some "15/04/2021"), ("Month", some "Apr-21")],
          [("D", some "15/05/2021"), ("Month", some "May-21")]]⟩ "R" "D").2 = 1) := by
  refine ⟨fun data mc dc h => ?_, fun d1 d2 dc hm hdates => ?_, by decide⟩
  · simp only [addMonthValidation, h, Bool.false_eq_true, if_false]
  · rw [validateRows_eq, validateRows_eq, hm]
    have h1 : d1.rows.map (fun r => rowLabel (fileMonthOf d2) (rowGetD r dc)) =
        (d1.rows.map (fun r => rowGetD r dc)).map (rowLabel (fileMonthOf d2)) := by
      simp [List.map_map]
    have h2 : d2.rows.map (fun r => rowLabel (fileMonthOf d2) (rowGetD r dc)) =
        (d2.rows.map (fun r => rowGetD r dc)).map (rowLabel (fileMonthOf d2)) := by
      simp [List.map_map]
    rw [h1, h2, hdates]

/-- Witness for C10: a frame with no Month column is returned unchanged. -/
theorem c10_first_row_declared_period_witness :
    addMonthValidation (⟨["D"], [[("D", some "15/04/2021")]]⟩ : Frame) "R" "D" =
      ((⟨["D"], [[("D", some "15/04/2021")]]⟩ : Frame), 0) :=
  c10_first_row_declared_period.1 _ "R" "D" (by decide)

/-! ## Section taxonomy registry (`GSTR1_WORKSHEETS`, `GSTR2A_WORKSHEETS`) -/

/-- One GSTR1 worksheet configuration entry. -/
structure WsConfig where
  reference : String
  tableRef : String
  outputName : String
  monthColumn : Option String
  dateColumn : Option String
  validationRequired : Bool
deriving DecidableEq

/-- The `GSTR1_WORKSHEETS` registry, in its source order. -/
def GSTR1_WORKSHEETS : List (String × WsConfig) :=
  [("B2B",
    ⟨"Taxable supplies made to registered taxpayers (invoices only) - B2B",
     "4A, 4B, 4C, 6B, 6C", "Outward - b2b+sez+de", some "R", some "D", true⟩),
   ("SEZ",
    ⟨"Taxable supplies made to registered taxpayers (invoices only) - SEZ",
     "4A, 4B, 4C, 6B, 6C", "Outward - b2b+sez+de", some "R", some "D", true⟩),
   ("DE",
    ⟨"Taxable supplies made to registered taxpayers (invoices only) - DE",
     "4A, 4B, 4C, 6B, 6C", "Outward - b2b+sez+de", some "R", some "D", true⟩),
   ("B2CL",
    ⟨"Taxable outward inter-state supplies made to unregistered persons (where invoice value is more than Rs.2.5 lakh) - B2CL (Large)",
     "5", "Out - b2cl", some "I", some "A", true⟩),
   ("EXP", ⟨"Exports", "6A", "Out - exp", some "O", some "C", true⟩),
   ("B2CS",
    ⟨"Taxable supplies (Net of debit and credit notes) to unregistered persons (other than the supplies covered in Table 5) - B2CS (Others)",
     "7", "Out-b2cs", none, none, false⟩),
   ("EXEMP",
    ⟨"Nil rated, exempted and non GST outward supplies", "8", "Out - exemp",
     none, none, false⟩),
   ("B2BA",
    ⟨"Amendment to taxable outward supplies made to registered person in returns of earlier tax periods in table 4A, 4B, 6B, 6C - B2B",
     "9A", "Out - b2ba", none, none, false⟩),
   ("B2CLA",
    ⟨"Amendment to Inter-State supplies made to unregistered person (where invoice value is more than Rs.2.5 lakh) in returns of earlier tax periods in table 5 - B2CL (Large)",
     "9B", "Out - b2cla", none, none, false⟩),
   ("EXPA", ⟨"Amendment to Export Supplies", "9C", "Out - expa", none, none, false⟩),
   ("CDNR",
    ⟨"Credit/ Debit notes issued to the registered taxpayers - CDNR", "10",
     "Outward - cdnr", some "S", some "D", true⟩),
   ("CDNUR",
    ⟨"Credit/ Debit notes issued to the unregistered persons - CDNUR", "11",
     "Out - cdnur", some "N", some "C", true⟩),
   ("CDNRA",
    ⟨"Amendment to Credit/ Debit notes issued to the registered taxpayers - CDNRA",
     "12A", "Out-cdnra", some "R", none, false⟩),
   ("CDNURA",
    ⟨"Amendment to Credit/ Debit notes issued to the unregistered persons - CDNURA",
     "12B", "Out-cdnura", some "M", none, false⟩),
   ("B2CSA",
    ⟨"Amendment to taxable outward supplies made to unregistered person in returns for earlier tax periods in table 7 - B2C (Others)",
     "12C", "Out-b2csa", some "J", none, false⟩),
   ("AT",
    ⟨"11A(1), 11A(2) - Advances received for which invoice has not been issued (tax amount to be added to the output tax liability) (Net of refund vouchers)",
     "11A(1), 11A(2)", "Out-at", some "H", none, false⟩),
   ("ATADJ",
    ⟨"11B(1), 11B(2) - Advance amount received in earlier tax period and adjusted against the supplies being shown in this tax period in Table Nos. 4, 5, 6 and 7",
     "11B(1), 11B(2)", "Out-atadj", some "H", none, false⟩),
   ("ATA",
    ⟨"11A - Amendment to advances received in returns for earlier tax periods in table 11A(1), 11A(2)",
     "11A", "Out-ata", some "J", none, false⟩),
   ("ATADJA",
    ⟨"11B - Amendment to advances adjusted in returns for earlier tax periods in table 11B(1), 11B(2)",
     "11B", "Out-atadja", some "J", none, false⟩),
   ("HSN",
    ⟨"12 - HSN-wise summary of outward supplies", "12", "Out-hsn", some "K",
     none, false⟩),
   ("DOCS", ⟨"13 - Documents issued", "13", "Out-docs", some "F", none, false⟩)]

/-- One GSTR2A worksheet configuration entry. -/
structure Ws2AConfig where
  reference : String
  tableRef : String
deriving DecidableEq

/-- The `GSTR2A_WORKSHEETS` registry, in its source order. -/
def GSTR2A_WORKSHEETS : List (String × Ws2AConfig) :=
  [("B2B", ⟨"Taxable inward supplies received from registered person", "3"⟩),
   ("B2BA", ⟨"Amendments to previously uploaded invoices by supplier", "4"⟩),
   ("CDNR", ⟨"Debit/Credit notes(Original)", "5"⟩),
   ("CDNRA", ⟨"Amendments to previously uploaded Credit/Debit notes by supplier", "6"⟩),
   ("ECO", ⟨"Documents reported by ECO on which ECO is liable to pay tax u/s 9(5)", "7"⟩),
   ("ECOA", ⟨"Amendment to documents reported by ECO on which ECO is liable to pay tax u/s 9(5)", "8"⟩),
   ("ISD", ⟨"ISD Credit", "9"⟩),
   ("ISDA", ⟨"Amendments to iSD Credits received", "10"⟩),
   ("TDS", ⟨"TDS Credit received", "11"⟩),
   ("TDSA", ⟨"Amendments to TDS Credit received", "12"⟩),
   ("TCS", ⟨"Details of supplies made through e-commerce operator (TCS)", "13"⟩),
   ("TCSA", ⟨"Amendments to details of supplies in respect of any earlier statement (TCSA)", "14"⟩),
   ("IMPG", ⟨"Import of goods from overseas on bill of entry", "15"⟩),
   ("IMPGSEZ", ⟨"Import of goods from SEZ units/developers on bill of entry", "16"⟩)]

/-! ## Uploaded files and fiscal-year sorting -/

/-- One `FileUpload` record, as the merge engine consumes it: the
identity stands for `file_path`. -/
structure Upload where
  fileId : Nat
  fileType : String
  month : Nat
  year : Nat
deriving DecidableEq

/-- The comparison implied by Python stable sorting on the tuple key
`(year if month >= 4 else year + 1, get_fy_month_order(month))`. -/
def uploadLE (u v : Upload) : Bool :=
  (fySortKey u.month u.year).1 < (fySortKey v.month v.year).1 ||
    ((fySortKey u.month u.year).1 == (fySortKey v.month v.year).1 &&
     (fySortKey u.month u.year).2 ≤ (fySortKey v.month v.year).2)

/-- Embeds `sorted(files, key=...)`: a stable sort by the fiscal-year
key. -/
def sortUploads (files : List Upload) : List Upload :=
  files.mergeSort uploadLE

/-! ## Sheet resolution with error isolation (`_read_worksheet_data`)

The pandas/zipfile I/O inside `_read_worksheet_data` is abstracted as an
oracle returning `Except`: an `error` outcome stands for any exception
raised while reading that file for that section.  The surrounding
`try/except` returns `None` in that case (lines 779-781). -/

/-- A read oracle: what the body of `_read_worksheet_data` produces for
one (file, section) pair, with exceptions as `Except.error`. -/
def ReadOracle := Upload → String → Except String (Option Frame)

/-- Embeds `_read_worksheet_data` around the oracle: any read error is
caught and treated as no fragment. -/
def readWorksheetData (read : ReadOracle) (u : Upload) (ws : String) :
    Option Frame :=
  match read u ws with
  | .error _ => none
  | .ok r => r

/-! ## Cross-month merge engine (`_process_gstr1_data`) -/

/-- Test `monthly_data.empty` of pandas (either axis empty). -/
def frameEmpty (f : Frame) : Bool := f.rows.isEmpty || f.cols.isEmpty

/-- Column-name union in order of first appearance, as `pd.concat`
aligns columns. -/
def unionCols (a b : List String) : List String :=
  a ++ b.filter (fun c => !a.contains c)

/-- Embeds `pd.concat(frames, ignore_index=True)`: columns united in
order of appearance, rows concatenated in order. -/
def concatFrames (fs : List Frame) : Frame :=
  ⟨fs.foldl (fun acc f => unionCols acc f.cols) [],
   (fs.map Frame.rows).flatten⟩

/-- One step of the inner loop over sorted files for one GSTR1 section:
state is (all_monthly_data, wrong_month_count, files_with_data). -/
def sectionStep (frag : Upload → String → Option Frame) (name : String)
    (cfg : WsConfig) (st : List Frame × Nat × Nat) (u : Upload) :
    List Frame × Nat × Nat :=
  match frag u name with
  | none => st
  | some md =>
    if frameEmpty md then st
    else if (dropnaAllRows md).isEmpty then st
    else if cfg.validationRequired && cfg.monthColumn.isSome &&
        cfg.dateColumn.isSome then
      let r := addMonthValidation md (cfg.monthColumn.getD "")
        (cfg.dateColumn.getD "")
      (st.1 ++ [r.1], st.2.1 + r.2, st.2.2 + 1)
    else (st.1 ++ [md], st.2.1, st.2.2 + 1)

/-- The inner loop of `_process_gstr1_data` for one section, over the
chronologically sorted files. -/
def sectionMonthlyData (frag : Upload → String → Option Frame)
    (sorted : List Upload) (name : String) (cfg : WsConfig) :
    List Frame × Nat × Nat :=
  sorted.foldl (sectionStep frag name cfg) ([], 0, 0)

/-- Per-section summary entry recorded in `analysis_details`. -/
structure SectionDetail where
  status : String
  filesWithData : Nat
  totalRecords : Nat
  wrongMonthRecords : Nat
deriving DecidableEq

/-- The no-records outcome string. -/
def noRecordsStatus : String :=
  "Taxpayer has no records under this head. Hence, No analysis is required"

/-- The output group shared by B2B, SEZ and DE, hardcoded in the combined
branch of `_process_gstr1_data`. -/
def combinedOutputName : String := "Outward - b2b+sez+de"

/-- The result of `_process_gstr1_data`: its summary fields and the data
worksheets it adds to the workbook, in creation order. -/
structure GSTR1Result where
  filesProcessed : Nat
  worksheetsCreated : Nat
  details : List (String × SectionDetail)
  sheets : List (String × Frame)
deriving DecidableEq

/-- One iteration of the per-section loop of `_process_gstr1_data`,
carrying the combined-sheets accumulator for the shared output group. -/
def gstr1SectionFold (frag : Upload → String → Option Frame)
    (sorted : List Upload) (st : GSTR1Result × List Frame)
    (entry : String × WsConfig) : GSTR1Result × List Frame :=
  let res := st.1
  let acc := st.2
  let name := entry.1
  let cfg := entry.2
  let m := sectionMonthlyData frag sorted name cfg
  if m.1.isEmpty then
    ({ res with details := res.details ++ [(name, ⟨noRecordsStatus, 0, 0, 0⟩)] },
     acc)
  else
    let combined := concatFrames m.1
    let detail : SectionDetail :=
      ⟨"Analysed and Generated", m.2.2, combined.rows.length, m.2.1⟩
    if cfg.outputName == combinedOutputName then
      ({ res with details := res.details ++ [(name, detail)] }, acc ++ [combined])
    else
      ({ res with
          sheets := res.sheets ++ [(cfg.outputName, combined)],
          worksheetsCreated := res.worksheetsCreated + 1,
          details := res.details ++ [(name, detail)] }, acc)

/-- Embeds `_process_gstr1_data`: early return on no files; otherwise the
per-section pass in registry order followed by emission of the combined
sheet when its accumulator is non-empty. -/
def processGSTR1Core (frag : Upload → String → Option Frame)
    (files : List Upload) : GSTR1Result :=
  if files.isEmpty then ⟨files.length, 0, [], []⟩
  else
    let sorted := sortUploads files
    let st := GSTR1_WORKSHEETS.foldl (gstr1SectionFold frag sorted)
      (⟨files.length, 0, [], []⟩, [])
    if st.2.isEmpty then st.1
    else
      { st.1 with
          sheets := st.1.sheets ++ [(combinedOutputName, concatFrames st.2)],
          worksheetsCreated := st.1.worksheetsCreated + 1 }

/-! ## GSTR2A processing (`_process_gstr2a_data`) -/

/-- Python column assignment `df[c] = v`: replace the column's cells in
place when present, else append it. -/
def setRowCell (r : Row) (c : String) (v : Option String) : Row :=
  if (List.lookup c r).isSome then
    r.map (fun p => if p.1 == c then (p.1, v) else p)
  else r ++ [(c, v)]

/-- Embeds `df[c] = v` on a whole frame. -/
def setCol (f : Frame) (c : String) (v : Option String) : Frame :=
  ⟨if f.cols.contains c then f.cols else f.cols ++ [c],
   f.rows.map (fun r => setRowCell r c v)⟩

/-- The result of `_process_gstr2a_data`. -/
structure GSTR2AResult where
  filesProcessed : Nat
  worksheetsCreated : Nat
  sheets : List (String × Frame)
deriving DecidableEq

/-- One iteration of the per-section loop of `_process_gstr2a_data`:
collects the non-empty monthly fragments (tagged with the upload's
declared period) and creates a sheet named by the section key when any
exists.  The sort of the files is hoisted: it does not depend on the
section. -/
def gstr2aSectionFold (frag : Upload → String → Option Frame)
    (sorted : List Upload) (st : GSTR2AResult) (entry : String × Ws2AConfig) :
    GSTR2AResult :=
  let name := entry.1
  let collected := sorted.foldl (fun acc u =>
    match frag u name with
    | none => acc
    | some md =>
      if frameEmpty md then acc
      else if (dropnaAllRows md).isEmpty then acc
      else acc ++ [setCol md "Month" (some (getMonthName u.month u.year))]) []
  if collected.isEmpty then st
  else
    { st with
        sheets := st.sheets ++ [(name, concatFrames collected)],
        worksheetsCreated := st.worksheetsCreated + 1 }

/-- Embeds `_process_gstr2a_data`. -/
def processGSTR2ACore (frag : Upload → String → Option Frame)
    (files : List Upload) : GSTR2AResult :=
  if files.isEmpty then ⟨files.length, 0, []⟩
  else GSTR2A_WORKSHEETS.foldl (gstr2aSectionFold frag (sortUploads files))
    ⟨files.length, 0, []⟩

/-! ## Claim C6 -/

/-- The fragment one sorted file contributes to a section, after the
emptiness checks and optional validation of the inner loop; `none` when
the file is skipped. -/
def contributedFrame (frag : Upload → String → Option Frame) (name : String)
    (cfg : WsConfig) (u : Upload) : Option Frame :=
  match frag u name with
  | none => none
  | some md =>
    if frameEmpty md then none
    else if (dropnaAllRows md).isEmpty then none
    else if cfg.validationRequired && cfg.monthColumn.isSome &&
        cfg.dateColumn.isSome then
      some (addMonthValidation md (cfg.monthColumn.getD "")
        (cfg.dateColumn.getD "")).1
    else some md

/-- The rows one file contributes to a merged section ([] when
skipped). -/
def contributedRows (frag : Upload → String → Option Frame) (name : String)
    (cfg : WsConfig) (u : Upload) : List Row :=
  match contributedFrame frag name cfg u with
  | none => []
  | some f => f.rows

/-- The rows of the merged section for one taxonomy entry, as
`_process_gstr1_data` builds them before emission. -/
def mergedRowsOfSection (frag : Upload → String → Option Frame)
    (files : List Upload) (name : String) (cfg : WsConfig) : List Row :=
  (concatFrames (sectionMonthlyData frag (sortUploads files) name cfg).1).rows

/-- The inner loop accumulates exactly the contributed frames, in file
order. -/
theorem foldl_sectionStep_fst (frag : Upload → String → Option Frame)
    (name : String) (cfg : WsConfig) :
    ∀ (l : List Upload) (init : List Frame × Nat × Nat),
      (l.foldl (sectionStep frag name cfg) init).1 =
        init.1 ++ l.filterMap (contributedFrame frag name cfg) := by
  intro l
  induction l with
  | nil => intro init; simp
  | cons u rest ih =>
    intro init
    rw [List.foldl_cons, List.filterMap_cons, ih]
    cases hf : frag u name with
    | none => simp [sectionStep, contributedFrame, hf]
    | some md =>
      by_cases h1 : frameEmpty md = true
      · simp [sectionStep, contributedFrame, hf, h1]
      · by_cases h2 : (dropnaAllRows md).isEmpty = true
        · simp [sectionStep, contributedFrame, hf, h1, h2]
        · by_cases h3 : (cfg.validationRequired && cfg.monthColumn.isSome &&
              cfg.dateColumn.isSome) = true
          · simp [sectionStep, contributedFrame, hf, h1, h2, h3]
          · simp [sectionStep, contributedFrame, hf, h1, h2, h3]

/-- Flattening the contributed frames' rows equals flattening the
per-file contributed rows. -/
theorem flatten_contributed (frag : Upload → String → Option Frame)
    (name : String) (cfg : WsConfig) (l : List Upload) :
    ((l.filterMap (contributedFrame frag name cfg)).map Frame.rows).flatten =
      (l.map (contributedRows frag name cfg)).flatten := by
  induction l with
  | nil => rfl
  | cons u rest ih =>
    rw [List.filterMap_cons, List.map_cons, List.flatten_cons]
    cases hc : contributedFrame frag name cfg u with
    | none => rw [ih]; simp [contributedRows, hc]
    | some f =>
      rw [List.map_cons, List.flatten_cons, ih]
      simp [contributedRows, hc]

/-- Transitivity of the fiscal-year file comparison. -/
theorem uploadLE_trans (a b c : Upload) (hab : uploadLE a b = true)
    (hbc : uploadLE b c = true) : uploadLE a c = true := by
  simp only [uploadLE, Bool.or_eq_true, Bool.and_eq_true, beq_iff_eq,
    decide_eq_true_eq] at *
  omega

/-- Totality of the fiscal-year file comparison. -/
theorem uploadLE_total (a b : Upload) :
    (uploadLE a b || uploadLE b a) = true := by
  simp only [uploadLE, Bool.or_eq_true, Bool.and_eq_true, beq_iff_eq,
    decide_eq_true_eq]
  omega

/-- Membership of an upload in the fiscal-year window April y .. March
y+1. -/
def inFiscalWindow (y : Nat) (u : Upload) : Prop :=
  (4 ≤ u.month ∧ u.month ≤ 12 ∧ u.year = y) ∨
  (1 ≤ u.month ∧ u.month ≤ 3 ∧ u.year = y + 1)

/-- C6: for every section and any multiset of monthly files in any upload
order, the merged section's rows are the concatenation, over the files
arranged by the fiscal-year sort key, of each file's fragment rows — so
each month's fragment keeps its original internal row order — and, for
files within one filing year's April-to-March window, that sort key order
coincides with true chronological order (April of the filing year first,
March of the following year last). -/
theorem c6_merge_chronological_order (frag : Upload → String → Option Frame)
    (files : List Upload) (name : String) (cfg : WsConfig) :
    (∃ sorted : List Upload,
      sorted.Perm files ∧
      sorted.Pairwise (fun u v => uploadLE u v = true) ∧
      mergedRowsOfSection frag files name cfg =
        (sorted.map (contributedRows frag name cfg)).flatten) ∧
    (∀ (y : Nat) (u v : Upload), inFiscalWindow y u → inFiscalWindow y v →
      (uploadLE u v = true ↔ 12 * u.year + u.month ≤ 12 * v.year + v.month)) := by
  constructor
  · refine ⟨sortUploads files, List.mergeSort_perm files uploadLE,
      List.sorted_mergeSort uploadLE_trans uploadLE_total files, ?_⟩
    unfold mergedRowsOfSection sectionMonthlyData concatFrames
    rw [foldl_sectionStep_fst]
    simp only [List.nil_append]
    exact flatten_contributed frag name cfg (sortUploads files)
  · intro y u v hu hv
    simp only [uploadLE, fySortKey, getFyMonthOrder, inFiscalWindow] at *
    rcases hu with ⟨h1, h2, h3⟩ | ⟨h1, h2, h3⟩ <;>
      rcases hv with ⟨g1, g2, g3⟩ | ⟨g1, g2, g3⟩
    · have hu4 : u.month ≥ 4 := by omega
      have hv4 : v.month ≥ 4 := by omega
      simp only [if_pos hu4, if_pos hv4, Bool.or_eq_true, Bool.and_eq_true,
        beq_iff_eq, decide_eq_true_eq]
      omega
    · have hu4 : u.month ≥ 4 := by omega
      have hv4 : ¬ v.month ≥ 4 := by omega
      simp only [if_pos hu4, if_neg hv4, Bool.or_eq_true, Bool.and_eq_true,
        beq_iff_eq, decide_eq_true_eq]
      omega
    · have hu4 : ¬ u.month ≥ 4 := by omega
      have hv4 : v.month ≥ 4 := by omega
      simp only [if_neg hu4, if_pos hv4, Bool.or_eq_true, Bool.and_eq_true,
        beq_iff_eq, decide_eq_true_eq]
      omega
    · have hu4 : ¬ u.month ≥ 4 := by omega
      have hv4 : ¬ v.month ≥ 4 := by omega
      simp only [if_neg hu4, if_neg hv4, Bool.or_eq_true, Bool.and_eq_true,
        beq_iff_eq, decide_eq_true_eq]
      omega

/-- Witness for C6: within the 2021-22 window, the key order agrees with
chronology for November 2021 and February 2022. -/
theorem c6_merge_chronological_order_witness :
    uploadLE ⟨1, "GSTR1", 11, 2021⟩ ⟨2, "GSTR1", 2, 2022⟩ = true ↔
      12 * 2021 + 11 ≤ 12 * 2022 + 2 :=
  (c6_merge_chronological_order (fun _ _ => none) [] "B2B"
    ⟨"", "", "", none, none, false⟩).2 2021
    ⟨1, "GSTR1", 11, 2021⟩ ⟨2, "GSTR1", 2, 2022⟩
    (Or.inl (by decide)) (Or.inr (by decide))

/-! ## Claim C7 -/

/-- The sheet one taxonomy entry emits directly during the per-section
pass (none when it has no data or belongs to the combined output
group). -/
def emittedSheet (frag : Upload → String → Option Frame)
    (sorted : List Upload) (entry : String × WsConfig) :
    Option (String × Frame) :=
  let m := sectionMonthlyData frag sorted entry.1 entry.2
  if m.1.isEmpty then none
  else if entry.2.outputName == combinedOutputName then none
  else some (entry.2.outputName, concatFrames m.1)

/-- The frame one taxonomy entry adds to the combined-sheets accumulator
(none when it has no data or is not in the combined output group). -/
def accumulatedFrame (frag : Upload → String → Option Frame)
    (sorted : List Upload) (entry : String × WsConfig) : Option Frame :=
  let m := sectionMonthlyData frag sorted entry.1 entry.2
  if m.1.isEmpty then none
  else if entry.2.outputName == combinedOutputName then
    some (concatFrames m.1)
  else none

/-- The `analysis_details` entry one taxonomy entry records. -/
def detailOf (frag : Upload → String → Option Frame)
    (sorted : List Upload) (entry : String × WsConfig) :
    String × SectionDetail :=
  let m := sectionMonthlyData frag sorted entry.1 entry.2
  if m.1.isEmpty then (entry.1, ⟨noRecordsStatus, 0, 0, 0⟩)
  else
    (entry.1, ⟨"Analysed and Generated", m.2.2,
      (concatFrames m.1).rows.length, m.2.1⟩)

/-- Closed form of the per-section pass of `_process_gstr1_data`. -/
theorem foldl_gstr1Sections (frag : Upload → String → Option Frame)
    (sorted : List Upload) :
    ∀ (reg : List (String × WsConfig)) (res : GSTR1Result) (acc : List Frame),
      reg.foldl (gstr1SectionFold frag sorted) (res, acc) =
        ({ res with
            sheets := res.sheets ++ reg.filterMap (emittedSheet frag sorted),
            worksheetsCreated := res.worksheetsCreated +
              (reg.filterMap (emittedSheet frag sorted)).length,
            details := res.details ++ reg.map (detailOf frag sorted) },
         acc ++ reg.filterMap (accumulatedFrame frag sorted)) := by
  intro reg
  induction reg with
  | nil => intro res acc; simp
  | cons e rest ih =>
    intro res acc
    rw [List.foldl_cons, List.filterMap_cons, List.filterMap_cons,
      List.map_cons]
    by_cases h1 : (sectionMonthlyData frag sorted e.1 e.2).1.isEmpty = true
    · rw [show gstr1SectionFold frag sorted (res, acc) e =
          ({ res with details := res.details ++
              [(e.1, ⟨noRecordsStatus, 0, 0, 0⟩)] }, acc) by
          simp [gstr1SectionFold, h1]]
      rw [ih]
      simp [emittedSheet, accumulatedFrame, detailOf, h1]
    · by_cases h2 : (e.2.outputName == combinedOutputName) = true
      · rw [show gstr1SectionFold frag sorted (res, acc) e =
            ({ res with details := res.details ++
                [detailOf frag sorted e] },
             acc ++ [concatFrames (sectionMonthlyData frag sorted e.1 e.2).1])
            by simp [gstr1SectionFold, detailOf, h1, h2]]
        rw [ih]
        simp [emittedSheet, accumulatedFrame, h1, h2]
      · rw [show gstr1SectionFold frag sorted (res, acc) e =
            ({ res with
                sheets := res.sheets ++
                  [(e.2.outputName,
                    concatFrames (sectionMonthlyData frag sorted e.1 e.2).1)],
                worksheetsCreated := res.worksheetsCreated + 1,
                details := res.details ++ [detailOf frag sorted e] }, acc)
            by simp [gstr1SectionFold, detailOf, h1, h2]]
        rw [ih]
        simp [emittedSheet, accumulatedFrame, h1, h2, Nat.add_assoc,
          Nat.add_comm 1]

/-- Closed form of `_process_gstr1_data` on a non-empty file list. -/
theorem processGSTR1Core_eq (frag : Upload → String → Option Frame)
    (files : List Upload) (h : files.isEmpty = false) :
    processGSTR1Core frag files =
      ⟨files.length,
       (GSTR1_WORKSHEETS.filterMap
          (emittedSheet frag (sortUploads files))).length +
         (if (GSTR1_WORKSHEETS.filterMap
              (accumulatedFrame frag (sortUploads files))).isEmpty
          then 0 else 1),
       GSTR1_WORKSHEETS.map (detailOf frag (sortUploads files)),
       GSTR1_WORKSHEETS.filterMap (emittedSheet frag (sortUploads files)) ++
         (if (GSTR1_WORKSHEETS.filterMap
              (accumulatedFrame frag (sortUploads files))).isEmpty
          then []
          else [(combinedOutputName,
            concatFrames (GSTR1_WORKSHEETS.filterMap
              (accumulatedFrame frag (sortUploads files))))])⟩ := by
  unfold processGSTR1Core
  rw [h]
  simp only [Bool.false_eq_true, if_false]
  rw [foldl_gstr1Sections]
  by_cases hac : (GSTR1_WORKSHEETS.filterMap
      (accumulatedFrame frag (sortUploads files))).isEmpty = true
  · simp [hac]
  · simp [hac]

/-- Filtering the directly emitted sheets by title commutes to filtering
the registry by output name. -/
theorem emitted_filter_title (frag : Upload → String → Option Frame)
    (sorted : List Upload) (g : String) :
    ∀ l : List (String × WsConfig),
      (l.filterMap (emittedSheet frag sorted)).filter (fun s => s.1 == g) =
        (l.filter (fun e => e.2.outputName == g)).filterMap
          (emittedSheet frag sorted) := by
  intro l
  induction l with
  | nil => rfl
  | cons e rest ih =>
    rw [List.filterMap_cons, List.filter_cons]
    by_cases h1 : (sectionMonthlyData frag sorted e.1 e.2).1.isEmpty = true
    · by_cases hg : (e.2.outputName == g) = true <;>
        simp [emittedSheet, h1, hg, ih]
    · by_cases h2 : (e.2.outputName == combinedOutputName) = true
      · by_cases hg : (e.2.outputName == g) = true <;>
          simp [emittedSheet, h1, h2, hg, ih]
      · by_cases hg : (e.2.outputName == g) = true
        · simp [emittedSheet, h1, h2, hg, ih, List.filter_cons]
        · simp [emittedSheet, h1, h2, hg, ih, List.filter_cons]

/-- No directly emitted sheet carries the combined output title. -/
theorem emitted_filter_combined (frag : Upload → String → Option Frame)
    (sorted : List Upload) :
    ∀ l : List (String × WsConfig),
      (l.filterMap (emittedSheet frag sorted)).filter
        (fun s => s.1 == combinedOutputName) = [] := by
  intro l
  induction l with
  | nil => rfl
  | cons e rest ih =>
    rw [List.filterMap_cons]
    by_cases h1 : (sectionMonthlyData frag sorted e.1 e.2).1.isEmpty = true
    · simp [emittedSheet, h1, ih]
    · by_cases h2 : (e.2.outputName == combinedOutputName) = true
      · simp [emittedSheet, h1, h2, ih]
      · simp [emittedSheet, h1, h2, ih, List.filter_cons]

/-- The combined accumulator is empty exactly when every section of the
combined output group has no data. -/
theorem accumulated_isEmpty (frag : Upload → String → Option Frame)
    (sorted : List Upload) :
    ∀ l : List (String × WsConfig),
      (l.filterMap (accumulatedFrame frag sorted)).isEmpty =
        (l.filter (fun e => e.2.outputName == combinedOutputName)).all
          (fun e => (sectionMonthlyData frag sorted e.1 e.2).1.isEmpty) := by
  intro l
  induction l with
  | nil => rfl
  | cons e rest ih =>
    rw [List.filterMap_cons, List.filter_cons]
    by_cases h2 : (e.2.outputName == combinedOutputName) = true
    · by_cases h1 : (sectionMonthlyData frag sorted e.1 e.2).1.isEmpty = true
      · simp [accumulatedFrame, h1, h2, ih]
      · simp [accumulatedFrame, h1, h2]
    · by_cases h1 : (sectionMonthlyData frag sorted e.1 e.2).1.isEmpty = true
      · simp [accumulatedFrame, h1, h2, ih]
      · simp [accumulatedFrame, h1, h2, ih]

/-- The rows of the combined sheet are the concatenation of the merged
rows of the combined group's sections, in registry order. -/
theorem accumulated_rows (frag : Upload → String → Option Frame)
    (sorted : List Upload) :
    ∀ l : List (String × WsConfig),
      ((l.filterMap (accumulatedFrame frag sorted)).map Frame.rows).flatten =
        ((l.filter (fun e => e.2.outputName == combinedOutputName)).map
          (fun e =>
            (concatFrames (sectionMonthlyData frag sorted e.1 e.2).1).rows)).flatten := by
  intro l
  induction l with
  | nil => rfl
  | cons e rest ih =>
    rw [List.filterMap_cons, List.filter_cons]
    by_cases h2 : (e.2.outputName == combinedOutputName) = true
    · by_cases h1 : (sectionMonthlyData frag sorted e.1 e.2).1.isEmpty = true
      · have hr : (concatFrames
            (sectionMonthlyData frag sorted e.1 e.2).1).rows = [] := by
          have : (sectionMonthlyData frag sorted e.1 e.2).1 = [] :=
            List.isEmpty_iff.mp h1
          simp [concatFrames, this]
        simp [accumulatedFrame, h1, h2, ih, hr]
      · simp [accumulatedFrame, h1, h2, ih]
    · by_cases h1 : (sectionMonthlyData frag sorted e.1 e.2).1.isEmpty = true
      · simp [accumulatedFrame, h1, h2, ih]
      · simp [accumulatedFrame, h1, h2, ih]

/-- Within the registry, two distinct entries share an output name only
in the combined output group. -/
theorem gstr1_outputs_almost_nodup :
    List.Pairwise
      (fun a b : String × WsConfig =>
        a.2.outputName = b.2.outputName →
          a.2.outputName = combinedOutputName)
      GSTR1_WORKSHEETS := by decide

/-- For a non-combined output name present in a registry list with the
almost-nodup property, exactly one entry carries it. -/
theorem filter_output_singleton :
    ∀ l : List (String × WsConfig),
      List.Pairwise
        (fun a b : String × WsConfig =>
          a.2.outputName = b.2.outputName →
            a.2.outputName = combinedOutputName) l →
      ∀ g : String, g ≠ combinedOutputName →
        g ∈ l.map (fun e => e.2.outputName) →
        ∃ e, l.filter (fun x => x.2.outputName == g) = [e] := by
  intro l
  induction l with
  | nil => simp
  | cons a rest ih =>
    intro hp g hg hmem
    rw [List.pairwise_cons] at hp
    rw [List.filter_cons]
    by_cases ha : (a.2.outputName == g) = true
    · have haeq : a.2.outputName = g := by simpa using ha
      have hrest : rest.filter (fun x => x.2.outputName == g) = [] := by
        rw [List.filter_eq_nil_iff]
        intro x hx hxg
        have hxeq : x.2.outputName = g := by simpa using hxg
        exact hg (haeq ▸ hp.1 x hx (haeq.trans hxeq.symm))
      exact ⟨a, by simp [ha, hrest]⟩
    · have hmem' : g ∈ rest.map (fun e => e.2.outputName) := by
        rcases List.mem_map.mp hmem with ⟨x, hx, hxe⟩
        rcases List.mem_cons.mp hx with rfl | hxr
        · exact absurd (by simp [hxe]) ha
        · exact List.mem_map.mpr ⟨x, hxr, hxe⟩
      simpa [ha] using ih hp.2 g hg hmem'

/-- C7: for every output group named in the taxonomy, the GSTR1 pass
creates exactly one sheet with that title when some contributing section
has data and none otherwise, and any sheet with that title holds exactly
the concatenation of the contributing sections' merged rows. -/
theorem c7_output_group_sheets (frag : Upload → String → Option Frame)
    (files : List Upload) (g : String)
    (hg : g ∈ GSTR1_WORKSHEETS.map (fun e => e.2.outputName)) :
    (((processGSTR1Core frag files).sheets.filter
        (fun s => s.1 == g)).length =
      if (GSTR1_WORKSHEETS.filter (fun e => e.2.outputName == g)).all
          (fun e =>
            (sectionMonthlyData frag (sortUploads files) e.1 e.2).1.isEmpty)
      then 0 else 1) ∧
    (∀ fr, (g, fr) ∈ (processGSTR1Core frag files).sheets →
      fr.rows =
        ((GSTR1_WORKSHEETS.filter (fun e => e.2.outputName == g)).map
          (fun e => mergedRowsOfSection frag files e.1 e.2)).flatten) := by
  by_cases hf : files.isEmpty = true
  · have hnil : files = [] := List.isEmpty_iff.mp hf
    subst hnil
    have hproc : processGSTR1Core frag [] = ⟨0, 0, [], []⟩ := by
      simp [processGSTR1Core]
    have hsort : sortUploads ([] : List Upload) = [] := List.mergeSort_nil
    have hsec : ∀ n c, sectionMonthlyData frag (sortUploads []) n c =
        ([], 0, 0) := by
      intro n c; rw [hsort]; rfl
    constructor
    · rw [hproc]
      simp only [List.filter_nil, List.length_nil]
      rw [if_pos]
      exact List.all_eq_true.mpr (fun e _ => by rw [hsec]; rfl)
    · intro fr hfr
      rw [hproc] at hfr
      simp at hfr
  · have hf' : files.isEmpty = false := by
      cases hfe : files.isEmpty
      · rfl
      · exact absurd hfe hf
    rw [processGSTR1Core_eq frag files hf']
    simp only [List.filter_append]
    by_cases hgc : g = combinedOutputName
    · subst hgc
      rw [emitted_filter_combined]
      constructor
      · rw [show ((GSTR1_WORKSHEETS.filter
              (fun e => e.2.outputName == combinedOutputName)).all
              (fun e =>
                (sectionMonthlyData frag (sortUploads files)
                  e.1 e.2).1.isEmpty))
            = (GSTR1_WORKSHEETS.filterMap
              (accumulatedFrame frag (sortUploads files))).isEmpty from
            (accumulated_isEmpty frag (sortUploads files)
              GSTR1_WORKSHEETS).symm]
        by_cases hac : (GSTR1_WORKSHEETS.filterMap
            (accumulatedFrame frag (sortUploads files))).isEmpty = true
        · simp [hac]
        · simp [hac]
      · intro fr hfr
        rcases List.mem_append.mp hfr with hin | hin
        · have hmf : (combinedOutputName, fr) ∈
              (GSTR1_WORKSHEETS.filterMap
                (emittedSheet frag (sortUploads files))).filter
                (fun s => s.1 == combinedOutputName) :=
            List.mem_filter.mpr ⟨hin, by simp⟩
          rw [emitted_filter_combined] at hmf
          simp at hmf
        · by_cases hac : (GSTR1_WORKSHEETS.filterMap
              (accumulatedFrame frag (sortUploads files))).isEmpty = true
          · rw [if_pos hac] at hin; simp at hin
          · rw [if_neg hac] at hin
            have hfr' : fr = concatFrames (GSTR1_WORKSHEETS.filterMap
                (accumulatedFrame frag (sortUploads files))) := by
              simpa using congrArg Prod.snd (List.mem_singleton.mp hin)
            subst hfr'
            show ((GSTR1_WORKSHEETS.filterMap
                (accumulatedFrame frag (sortUploads files))).map
                  Frame.rows).flatten = _
            rw [accumulated_rows]
            rfl
    · obtain ⟨e, he⟩ := filter_output_singleton GSTR1_WORKSHEETS
        gstr1_outputs_almost_nodup g hgc hg
      have heo : e.2.outputName = g := by
        have hmem : e ∈ GSTR1_WORKSHEETS.filter
            (fun x => x.2.outputName == g) := by
          rw [he]; exact List.mem_singleton.mpr rfl
        simpa using (List.mem_filter.mp hmem).2
      have hcombne : (combinedOutputName == g) = false := by
        simp [Ne.symm hgc]
      have hene : (e.2.outputName == combinedOutputName) = false := by
        rw [heo]; simp [hgc]
      have htrio : (if (GSTR1_WORKSHEETS.filterMap
            (accumulatedFrame frag (sortUploads files))).isEmpty
          then ([] : List (String × Frame))
          else [(combinedOutputName,
            concatFrames (GSTR1_WORKSHEETS.filterMap
              (accumulatedFrame frag (sortUploads files))))]).filter
            (fun s => s.1 == g) = [] := by
        by_cases hac : (GSTR1_WORKSHEETS.filterMap
            (accumulatedFrame frag (sortUploads files))).isEmpty = true
        · simp [hac]
        · simp [hac, hcombne]
      constructor
      · rw [emitted_filter_title, he, htrio]
        by_cases hm : (sectionMonthlyData frag (sortUploads files)
            e.1 e.2).1.isEmpty = true
        · rw [if_pos (by simp [hm])]
          simp [emittedSheet, hm]
        · rw [if_neg (by simp [hm])]
          simp [emittedSheet, hm, hene]
      · intro fr hfr
        rcases List.mem_append.mp hfr with hin | hin
        · have hmf : (g, fr) ∈ (GSTR1_WORKSHEETS.filterMap
              (emittedSheet frag (sortUploads files))).filter
                (fun s => s.1 == g) :=
            List.mem_filter.mpr ⟨hin, by simp⟩
          rw [emitted_filter_title, he] at hmf
          by_cases hm : (sectionMonthlyData frag (sortUploads files)
              e.1 e.2).1.isEmpty = true
          · simp [emittedSheet, hm] at hmf
          · simp only [List.filterMap_cons, List.filterMap_nil,
              emittedSheet, hm, hene] at hmf
            simp only [Bool.false_eq_true, if_false] at hmf
            have hfr' : fr = concatFrames
                (sectionMonthlyData frag (sortUploads files) e.1 e.2).1 := by
              simpa using congrArg Prod.snd (List.mem_singleton.mp hmf)
            subst hfr'
            rw [he]
            simp [mergedRowsOfSection, concatFrames]
        · have hmt : (g, fr) ∈ (if (GSTR1_WORKSHEETS.filterMap
                (accumulatedFrame frag (sortUploads files))).isEmpty
              then ([] : List (String × Frame))
              else [(combinedOutputName,
                concatFrames (GSTR1_WORKSHEETS.filterMap
                  (accumulatedFrame frag (sortUploads files))))]).filter
                (fun s => s.1 == g) :=
            List.mem_filter.mpr ⟨hin, by simp⟩
          rw [htrio] at hmt
          simp at hmt

/-- Witness for C7 at a concrete output group with no files. -/
theorem c7_output_group_sheets_witness :
    ((((processGSTR1Core (fun _ _ => none) []).sheets.filter
        (fun s => s.1 == "Out - b2cl")).length =
      if (GSTR1_WORKSHEETS.filter
            (fun e => e.2.outputName == "Out - b2cl")).all
          (fun e =>
            (sectionMonthlyData (fun _ _ => none) (sortUploads [])
              e.1 e.2).1.isEmpty)
      then 0 else 1) ∧
    (∀ fr, ("Out - b2cl", fr) ∈ (processGSTR1Core (fun _ _ => none) []).sheets →
      fr.rows =
        ((GSTR1_WORKSHEETS.filter
            (fun e => e.2.outputName == "Out - b2cl")).map
          (fun e =>
            mergedRowsOfSection (fun _ _ => none) [] e.1 e.2)).flatten)) :=
  c7_output_group_sheets (fun _ _ => none) [] "Out - b2cl" (by decide)

/-! ## Claim C8 -/

/-- C8: a read error for one (file, section) pair is caught and treated
exactly as "no fragment" for that file — the whole GSTR1 and GSTR2A
results equal those of a run where that read benignly returns nothing, so
no other file or section outcome changes and the run never aborts; and
each section's merge input depends only on its own reads, so a failure
confined to one section leaves every other section's data untouched. -/
theorem c8_read_error_isolation (read : ReadOracle) (files : List Upload)
    (u0 : Upload) (s0 : String) (e : String)
    (h : read u0 s0 = .error e) :
    (processGSTR1Core (readWorksheetData read) files =
      processGSTR1Core (readWorksheetData
        (fun u s => if u = u0 ∧ s = s0 then .ok none else read u s)) files) ∧
    (processGSTR2ACore (readWorksheetData read) files =
      processGSTR2ACore (readWorksheetData
        (fun u s => if u = u0 ∧ s = s0 then .ok none else read u s)) files) ∧
    (∀ (frag1 frag2 : Upload → String → Option Frame) (name : String)
        (cfg : WsConfig),
      (∀ u, frag1 u name = frag2 u name) →
      sectionMonthlyData frag1 (sortUploads files) name cfg =
        sectionMonthlyData frag2 (sortUploads files) name cfg) := by
  have hfun : readWorksheetData
      (fun u s => if u = u0 ∧ s = s0 then .ok none else read u s) =
      readWorksheetData read := by
    funext u s
    by_cases hu : u = u0 ∧ s = s0
    · obtain ⟨rfl, rfl⟩ := hu
      simp [readWorksheetData, h]
    · simp [readWorksheetData, hu]
  refine ⟨by rw [hfun], by rw [hfun], ?_⟩
  intro frag1 frag2 name cfg hp
  have hstep : sectionStep frag1 name cfg = sectionStep frag2 name cfg := by
    funext st u
    simp [sectionStep, hp u]
  unfold sectionMonthlyData
  rw [hstep]

/-- Witness for C8: a concrete oracle erroring on the B2B read of one
file. -/
theorem c8_read_error_isolation_witness :
    (processGSTR1Core
        (readWorksheetData (fun _ s =>
          if s = "B2B" then .error "corrupt zip" else .ok none))
        [⟨0, "GSTR1", 4, 2021⟩] =
      processGSTR1Core
        (readWorksheetData (fun u s =>
          if u = (⟨0, "GSTR1", 4, 2021⟩ : Upload) ∧ s = "B2B" then .ok none
          else if s = "B2B" then .error "corrupt zip" else .ok none))
        [⟨0, "GSTR1", 4, 2021⟩]) ∧
    (processGSTR2ACore
        (readWorksheetData (fun _ s =>
          if s = "B2B" then .error "corrupt zip" else .ok none))
        [⟨0, "GSTR1", 4, 2021⟩] =
      processGSTR2ACore
        (readWorksheetData (fun u s =>
          if u = (⟨0, "GSTR1", 4, 2021⟩ : Upload) ∧ s = "B2B" then .ok none
          else if s = "B2B" then .error "corrupt zip" else .ok none))
        [⟨0, "GSTR1", 4, 2021⟩]) ∧
    (∀ (frag1 frag2 : Upload → String → Option Frame) (name : String)
        (cfg : WsConfig),
      (∀ u, frag1 u name = frag2 u name) →
      sectionMonthlyData frag1 (sortUploads [⟨0, "GSTR1", 4, 2021⟩]) name cfg =
        sectionMonthlyData frag2 (sortUploads [⟨0, "GSTR1", 4, 2021⟩])
          name cfg) :=
  c8_read_error_isolation
    (fun _ s => if s = "B2B" then .error "corrupt zip" else .ok none)
    [⟨0, "GSTR1", 4, 2021⟩] ⟨0, "GSTR1", 4, 2021⟩ "B2B" "corrupt zip"
    (by simp)

/-! ## Run orchestrator (`start_analysis`, `_process_gst_data`) -/

/-- The project fields the engine reads. -/
structure Project where
  gstin : String
  financialYear : String
deriving DecidableEq

/-- The summary dictionary `_process_gst_data` returns on success;
`gstr1Summary.sheets` and `gstr2aSummary.sheets` double as the record of
worksheets added to the workbook. -/
structure Summary where
  gstr1Summary : GSTR1Result
  gstr2aSummary : GSTR2AResult
  totalWorksheets : Nat
  createdDataWorksheets : List String
deriving DecidableEq

/-- The dictionary `_process_gst_data` returns. -/
structure ProcResult where
  success : Bool
  outputFilename : Option String
  outputPath : Option String
  summary : Option Summary
  error : Option String
deriving DecidableEq

/-- The loop extending `created_worksheets` with names not already
present. -/
def extendCreated (created : List String) (names : List String) :
    List String :=
  names.foldl (fun acc n => if acc.contains n then acc else acc ++ [n])
    created

/-- The deterministic output file name
`GST_Analysis_{gstin}_{fy}_{analysis_id[:8]}.xlsx`. -/
def outputFilenameOf (proj : Project) (analysisId : String) : String :=
  "GST_Analysis_" ++ proj.gstin ++ "_" ++ proj.financialYear ++ "_" ++
    String.mk (analysisId.data.take 8) ++ ".xlsx"

/-- Embeds `_process_gst_data`.  File-system effects of the try block
(directory creation, workbook save) are abstracted by `ioResult`; any
exception escaping the block is caught and converted into a failure
dictionary with the captured message, as in the source. -/
def processGstData (frag : Upload → String → Option Frame)
    (uploads : List Upload) (proj : Project) (analysisId : String)
    (ioResult : Except String Unit) : ProcResult :=
  match ioResult with
  | .error e =>
    ⟨false, none, none, none, some ("Data processing failed: " ++ e)⟩
  | .ok _ =>
    let gstr1Files := uploads.filter (fun u => u.fileType == "GSTR1")
    let gstr2aFiles := uploads.filter (fun u => u.fileType == "GSTR2A")
    let outputFilename := outputFilenameOf proj analysisId
    let r1 := processGSTR1Core frag gstr1Files
    let r2 := processGSTR2ACore frag gstr2aFiles
    let g1Titles := r1.sheets.map Prod.fst
    let allTitles := r1.sheets.map Prod.fst ++ r2.sheets.map Prod.fst
    ⟨true, some outputFilename, some ("outputs/" ++ outputFilename),
     some ⟨r1, r2, r1.sheets.length + r2.sheets.length + 1,
       extendCreated g1Titles allTitles⟩,
     none⟩

/-- The run record fields `start_analysis` manages. -/
structure AnalysisRecord where
  status : String
  outputFilename : Option String
  outputFilePath : Option String
  analysisSummary : Option Summary
  errorMessage : Option String
deriving DecidableEq

/-- The record as created before processing begins. -/
def initialAnalysisRecord : AnalysisRecord :=
  ⟨"processing", none, none, none, none⟩

/-- Embeds the post-processing update of `start_analysis`: completed with
the output identity and summary on success, failed with the captured
message otherwise. -/
def startAnalysisUpdate (pr : ProcResult) : AnalysisRecord :=
  if pr.success then
    { initialAnalysisRecord with
        status := "completed",
        outputFilename := pr.outputFilename,
        outputFilePath := pr.outputPath,
        analysisSummary := pr.summary }
  else
    { initialAnalysisRecord with
        status := "failed",
        errorMessage := pr.error }

/-! ## Claim C9 -/

/-- C9: the run record starts in processing and ends in exactly one of
completed or failed: failed with the captured error message and no output
artifact or summary when an exception escapes the pipeline, completed
with the deterministic output identity and a summary carrying both
families' per-section results when it succeeds. -/
theorem c9_run_state_machine (frag : Upload → String → Option Frame)
    (uploads : List Upload) (proj : Project) (analysisId : String)
    (ioResult : Except String Unit) :
    initialAnalysisRecord.status = "processing" ∧
    ((startAnalysisUpdate
        (processGstData frag uploads proj analysisId ioResult)).status =
          "completed" ∨
     (startAnalysisUpdate
        (processGstData frag uploads proj analysisId ioResult)).status =
          "failed") ∧
    (∀ e, ioResult = .error e →
      (startAnalysisUpdate
        (processGstData frag uploads proj analysisId ioResult)) =
        ⟨"failed", none, none, none,
         some ("Data processing failed: " ++ e)⟩) ∧
    (ioResult = .ok () →
      ∃ s : Summary,
        (startAnalysisUpdate
          (processGstData frag uploads proj analysisId ioResult)) =
          ⟨"completed", some (outputFilenameOf proj analysisId),
           some ("outputs/" ++ outputFilenameOf proj analysisId),
           some s, none⟩ ∧
        s.gstr1Summary = processGSTR1Core frag
          (uploads.filter (fun u => u.fileType == "GSTR1")) ∧
        s.gstr2aSummary = processGSTR2ACore frag
          (uploads.filter (fun u => u.fileType == "GSTR2A"))) := by
  refine ⟨rfl, ?_, ?_, ?_⟩
  · cases ioResult with
    | error e => right; rfl
    | ok u => left; rfl
  · intro e he
    subst he
    rfl
  · intro hok
    subst hok
    exact ⟨_, rfl, rfl, rfl⟩

/-- Witness for C9 on a failing pipeline. -/
theorem c9_run_state_machine_witness :
    (startAnalysisUpdate
      (processGstData (fun _ _ => none) [] ⟨"GSTIN1", "2021-22"⟩ "abc"
        (.error "boom"))) =
      ⟨"failed", none, none, none,
       some ("Data processing failed: " ++ "boom")⟩ :=
  (c9_run_state_machine (fun _ _ => none) [] ⟨"GSTIN1", "2021-22"⟩ "abc"
    (.error "boom")).2.2.1 "boom" rfl

/-! ## Index sheet (`_create_index_sheet_data`, `_add_index_sheet`) -/

/-- One dictionary of the `index_data` list built by
`_create_index_sheet_data`; the output-sheet-name and remarks fields are
present only on GSTR1 rows. -/
structure IndexEntry where
  sNo : Nat
  worksheetName : String
  tableReference : String
  outputSheetName : Option String
  analysisOutput : String
  remarks : Option String
deriving DecidableEq

/-- The GSTR1 part of one index row: outcome is Analysed and Generated
exactly when a created worksheet matches the section key or its output
group name, and a remarks string reports a positive wrong-month count. -/
def gstr1IndexEntry (createdWorksheets : List String)
    (analysisDetails : List (String × SectionDetail)) (i : Nat)
    (entry : String × WsConfig) : IndexEntry :=
  let generated := !createdWorksheets.isEmpty &&
    (createdWorksheets.contains entry.1 ||
     createdWorksheets.contains entry.2.outputName)
  let analysisOutput :=
    if generated then "Analysed and Generated" else noRecordsStatus
  let remarks :=
    if generated then
      if !analysisDetails.isEmpty &&
          (List.lookup entry.1 analysisDetails).isSome then
        let wrongCount :=
          ((List.lookup entry.1 analysisDetails).getD
            ⟨"", 0, 0, 0⟩).wrongMonthRecords
        if wrongCount > 0 then
          toString wrongCount ++ " wrong month invoices/rows"
        else ""
      else ""
    else ""
  ⟨i + 1, entry.1, entry.2.reference, some entry.2.outputName,
   analysisOutput, some remarks⟩

/-- The GSTR2A part of one index row: outcome by section-key match
only. -/
def gstr2aIndexEntry (createdWorksheets : List String) (i : Nat)
    (entry : String × Ws2AConfig) : IndexEntry :=
  let analysisOutput :=
    if !createdWorksheets.isEmpty && createdWorksheets.contains entry.1
    then "Analysed and Generated" else noRecordsStatus
  ⟨i + 1, entry.1, entry.2.reference, none, analysisOutput, none⟩

/-- Embeds `_create_index_sheet_data`.  The two file-list parameters are
accepted and, as in the source, never used: every taxonomy section of
both families is always listed. -/
def createIndexSheetData (gstr1Files gstr2aFiles : List Upload)
    (createdWorksheets : List String)
    (analysisDetails : List (String × SectionDetail)) : List IndexEntry :=
  GSTR1_WORKSHEETS.enum.map
    (fun p => gstr1IndexEntry createdWorksheets analysisDetails p.1 p.2) ++
  GSTR2A_WORKSHEETS.enum.map
    (fun p => gstr2aIndexEntry createdWorksheets p.1 p.2)

/-- One rendered row of the Index worksheet: the GSTR1 cell block
(columns 1-4) and the GSTR2A cell block (columns 6-9), each
(serial, worksheet name, table reference, analysis output). -/
structure RenderedIndexRow where
  gstr1Cells : Option (Nat × String × String × String)
  gstr2aCells : Option (Nat × String × String × String)
deriving DecidableEq

/-- Embeds the data rows written by `_add_index_sheet` (lines 455-536):
the loop reads the class registries directly, writes the literal string
"Analysed and Generated" into every Analysis Output cell, writes no
remarks cell, and never consults its `index_data` argument. -/
def addIndexSheet (indexData : List IndexEntry) : List RenderedIndexRow :=
  (List.range (max GSTR1_WORKSHEETS.length GSTR2A_WORKSHEETS.length)).map
    (fun i =>
      ⟨(GSTR1_WORKSHEETS[i]?).map
        (fun e => (i + 1, e.1, e.2.reference, "Analysed and Generated")),
       (GSTR2A_WORKSHEETS[i]?).map
        (fun e => (i + 1, e.1, e.2.reference, "Analysed and Generated"))⟩)

/-! ## Claim C1 -/

/-- C1 (divergence): on a run that created no worksheets, the computed
index data correctly records the no-records outcome for B2B, but the
rendered index sheet still shows "Analysed and Generated" there, renders
no remarks at all, and is independent of the computed index data; both
representations do list every section of both families. -/
theorem c1_index_sheet_divergence :
    ((createIndexSheetData [] [] [] []).head?.map IndexEntry.analysisOutput =
      some noRecordsStatus) ∧
    (((addIndexSheet (createIndexSheetData [] [] [] [])).head?.bind
        RenderedIndexRow.gstr1Cells).map (fun c => c.2.2.2) =
      some "Analysed and Generated") ∧
    (∀ d1 d2 : List IndexEntry, addIndexSheet d1 = addIndexSheet d2) ∧
    (∀ gstr1Files gstr2aFiles cw det,
      (createIndexSheetData gstr1Files gstr2aFiles cw det).length =
        GSTR1_WORKSHEETS.length + GSTR2A_WORKSHEETS.length) ∧
    (∀ d : List IndexEntry, (addIndexSheet d).length =
      max GSTR1_WORKSHEETS.length GSTR2A_WORKSHEETS.length) := by
  refine ⟨by decide, by decide, fun d1 d2 => rfl, ?_, fun d => by
    simp [addIndexSheet]⟩
  intro gstr1Files gstr2aFiles cw det
  simp [createIndexSheetData]

end GSTNxt
